import Mathlib

/-!
Shallow embedding of src/native/procwrapper.c.

The registry is the global `procs` table of `MAX_PROCS` slots guarded by one
mutex; every operation is sequential here (each critical section of the C code
executes atomically and the operations are modelled as whole atomic functions,
which is faithful for single-threaded call sequences).

Interactions with the operating system are modelled explicitly:
  * the outcome of `pipe`/`fork` inside `start_process` is a `SpawnOutcome`
    oracle (on failure only process-local file descriptors are closed; the
    registry is untouched, exactly as in the C code);
  * the outcome of `read(fd, buf, len)` is a `ReadOutcome` oracle;
  * the supervised child process itself is a `ChildState` state machine:
    `alive`, `zombie st` (terminated with wait status `st`, not yet waited
    for), or `reaped` (already waited for; any further `waitpid` on the pid
    fails with ECHILD, and `kill` reports ESRCH).  `waitpidNohang` is the
    POSIX `waitpid(pid, &status, WNOHANG)` on that state machine, and a
    successful wait consumes the status: the child becomes `reaped`.
`set_nonblocking` only changes fd flags, never the registry, so it has no
counterpart in the state.
-/

set_option linter.unusedVariables false

namespace ProcWrapper

/-- One entry of the `procs` table (`proc_entry` in the C source).
`exit_code` uses the C encoding: `-2` running / not set, `>= 0` real exit
code (`128 + signal` for signal deaths), `-1` error.  A pipe endpoint is
recorded closed by storing `-1`; the zero-initialised table stores `0`. -/
structure ProcEntry where
  used : Bool
  pid : Nat
  stdout_fd : Int
  stderr_fd : Int
  exit_code : Int
deriving DecidableEq, Repr

/-- `MAX_PROCS` from the C source. -/
def MAX_PROCS : Nat := 64

/-- The `procs` table, indexed by slot number. -/
def Registry : Type := Nat → ProcEntry

/-- Point update of the table. -/
def updateReg (reg : Registry) (i : Nat) (e : ProcEntry) : Registry :=
  fun j => if j = i then e else reg j

/-- The zero-initialised static table: `used = 0`, `pid = 0`, both fds `0`,
`exit_code = 0`. -/
def initReg : Registry :=
  fun _ => ⟨false, 0, 0, 0, 0⟩

/-- Status reported by a successful `waitpid`: `WIFEXITED` with
`WEXITSTATUS` in `0..=255`, `WIFSIGNALED` with `WTERMSIG`, or neither. -/
inductive WaitStatus where
  | exited (c : Fin 256)
  | signaled (s : Nat)
  | other
deriving DecidableEq

/-- The value `reap_if_finished` stores for a reported wait status
(the `WIFEXITED` / `WIFSIGNALED` / fallthrough branches). -/
def encodeWait : WaitStatus → Int
  | .exited c => (c : Int)
  | .signaled s => 128 + (s : Nat)
  | .other => -1

/-- The child process as observed through `waitpid` and `kill`. -/
inductive ChildState where
  | alive
  | zombie (st : WaitStatus)
  | reaped
deriving DecidableEq

/-- Result of one `waitpid(pid, &status, WNOHANG)` call. -/
inductive WaitRes where
  | finished (st : WaitStatus)
  | noChange
  | waitErr
deriving DecidableEq

/-- `waitpid(pid, &status, WNOHANG)`: returns the pid and the status for a
zombie (which becomes reaped), `0` for a live child, `-1` (ECHILD) for an
already-reaped child. -/
def waitpidNohang : ChildState → WaitRes × ChildState
  | .alive => (.noChange, .alive)
  | .zombie st => (.finished st, .reaped)
  | .reaped => (.waitErr, .reaped)

/-- `kill(pid, 0) == 0`: the process still exists (alive or zombie);
after it has been reaped, `kill` fails with ESRCH. -/
def processExists : ChildState → Bool
  | .reaped => false
  | _ => true

/-- `reap_if_finished` from the C source.  Guards: in-range handle, slot in
use, `exit_code` still `-2`; then one non-blocking wait, re-check (a no-op in
this sequential model: the state cannot have changed between the two mutex
sections), and commit of the encoded status (`-1` when `waitpid` failed,
nothing when the child is still running). -/
def reap_if_finished (reg : Registry) (h : Int) (c : ChildState) :
    Registry × ChildState :=
  if h < 0 ∨ 64 ≤ h then (reg, c)
  else if (reg h.toNat).used = false ∨ (reg h.toNat).exit_code ≠ -2 then (reg, c)
  else if (reg h.toNat).used = false ∨ (reg h.toNat).exit_code ≠ -2 then
    (reg, (waitpidNohang c).2)
  else
    match (waitpidNohang c).1 with
    | .finished st =>
      (updateReg reg h.toNat { reg h.toNat with exit_code := encodeWait st },
       (waitpidNohang c).2)
    | .waitErr =>
      (updateReg reg h.toNat { reg h.toNat with exit_code := -1 },
       (waitpidNohang c).2)
    | .noChange => (reg, (waitpidNohang c).2)

/-- Outcome of the `pipe`/`pipe`/`fork` sequence in `start_process`.  On any
of the three failures the C code closes the already-created descriptors and
returns `-1` without touching the registry, so the failures collapse to one
constructor.  On success the child pid and the two parent-side read ends
(always nonnegative descriptors) are produced. -/
inductive SpawnOutcome where
  | ok (pid outfd errfd : Nat)
  | fail
deriving DecidableEq

/-- Lowest-index scan `for (i = 0; i < MAX_PROCS; ++i) if (!procs[i].used)`. -/
def firstFreeAux (reg : Registry) : Nat → Nat → Option Nat
  | _, 0 => none
  | i, fuel + 1 => if (reg i).used then firstFreeAux reg (i + 1) fuel else some i

/-- First free slot of the table, if any. -/
def firstFree (reg : Registry) : Option Nat :=
  firstFreeAux reg 0 MAX_PROCS

/-- `start_process` from the C source.  `pathNull` / `argvNull` model the
`!path || !argv` check; the rest of the argument data never reaches the
registry.  On success the chosen slot is populated with
`used = 1`, the child pid, the two read ends, and `exit_code = -2`. -/
def start_process (reg : Registry) (pathNull argvNull : Bool)
    (os : SpawnOutcome) : Int × Registry :=
  if pathNull ∨ argvNull then (-1, reg)
  else
    match firstFree reg with
    | none => (-1, reg)
    | some idx =>
      match os with
      | .fail => (-1, reg)
      | .ok pid outfd errfd =>
        ((idx : Int), updateReg reg idx ⟨true, pid, (outfd : Int), (errfd : Int), -2⟩)

/-- `maybe_clear_slot_after_eof` from the C source (called with the mutex
held): free the slot only when both endpoints are closed and
`exit_code >= 0`. -/
def maybe_clear_slot_after_eof (reg : Registry) (h : Int) : Registry :=
  if h < 0 ∨ 64 ≤ h then reg
  else if (reg h.toNat).used = false then reg
  else if (reg h.toNat).stdout_fd < 0 ∧ (reg h.toNat).stderr_fd < 0 ∧
      0 ≤ (reg h.toNat).exit_code then
    updateReg reg h.toNat { reg h.toNat with used := false }
  else reg

/-- Outcome of the `read(fd, buffer, buflen)` system call, consulted only
when the stored endpoint is nonnegative.  `data n` models a successful read
of `n` bytes (`read` only ever reports `n >= 1` this way; `n == 0` is the
`eof` case and negative returns are split by errno). -/
inductive ReadOutcome where
  | data (n : Nat)
  | eof
  | wouldBlock
  | readErr
deriving DecidableEq

/-- `read_stdout` from the C source.  `bufNull` models `!buffer`. -/
def read_stdout (reg : Registry) (h : Int) (bufNull : Bool) (buflen : Int)
    (rr : ReadOutcome) : Int × Registry :=
  if bufNull ∨ buflen ≤ 0 then (-1, reg)
  else if h < 0 ∨ 64 ≤ h then (-1, reg)
  else if (reg h.toNat).stdout_fd < 0 then (0, reg)
  else
    match rr with
    | .data n => ((n : Int), reg)
    | .eof =>
      if 0 ≤ (reg h.toNat).stdout_fd then
        (0, maybe_clear_slot_after_eof
              (updateReg reg h.toNat { reg h.toNat with stdout_fd := -1 }) h)
      else (0, reg)
    | .wouldBlock => (0, reg)
    | .readErr => (-1, reg)

/-- `read_stderr` from the C source, the mirror image of `read_stdout`. -/
def read_stderr (reg : Registry) (h : Int) (bufNull : Bool) (buflen : Int)
    (rr : ReadOutcome) : Int × Registry :=
  if bufNull ∨ buflen ≤ 0 then (-1, reg)
  else if h < 0 ∨ 64 ≤ h then (-1, reg)
  else if (reg h.toNat).stderr_fd < 0 then (0, reg)
  else
    match rr with
    | .data n => ((n : Int), reg)
    | .eof =>
      if 0 ≤ (reg h.toNat).stderr_fd then
        (0, maybe_clear_slot_after_eof
              (updateReg reg h.toNat { reg h.toNat with stderr_fd := -1 }) h)
      else (0, reg)
    | .wouldBlock => (0, reg)
    | .readErr => (-1, reg)

/-- `is_running` from the C source. -/
def is_running (reg : Registry) (h : Int) (c : ChildState) :
    Int × Registry × ChildState :=
  if h < 0 ∨ 64 ≤ h then (0, reg, c)
  else
    (if ((reap_if_finished reg h c).1 h.toNat).used = true ∧
        ((reap_if_finished reg h c).1 h.toNat).exit_code = -2 then 1 else 0,
     (reap_if_finished reg h c).1, (reap_if_finished reg h c).2)

/-- `get_exit_code` from the C source. -/
def get_exit_code (reg : Registry) (h : Int) (c : ChildState) :
    Int × Registry × ChildState :=
  if h < 0 ∨ 64 ≤ h then (-1, reg, c)
  else
    (((reap_if_finished reg h c).1 h.toNat).exit_code,
     (reap_if_finished reg h c).1, (reap_if_finished reg h c).2)

/-- Result of `stop_process`: return value, registry, child state, and the
pid the `kill(pid, SIGTERM)` call was issued to (`none` when control never
reached that call). -/
structure StopOut where
  ret : Int
  reg : Registry
  child : ChildState
  termSent : Option Nat

/-- The grace loop of `stop_process`: up to ten `waitpid(pid, &st, WNOHANG)`
polls; a successful wait (which consumes — and discards — the status) breaks
the loop; otherwise the child evolves during the `usleep` (`evolve k` is what
the scheduler does to the child during the `k`-th sleep). -/
def graceLoop (evolve : Nat → ChildState → ChildState) :
    Nat → Nat → ChildState → ChildState
  | _, 0, c => c
  | i, fuel + 1, c =>
    match waitpidNohang c with
    | (.finished _, c') => c'
    | (_, c') => graceLoop evolve (i + 1) fuel (evolve i c')

/-- `stop_process` from the C source.  `kill(pid, SIGTERM)` fails (with
ESRCH, the only kill failure in this model) exactly when the process no
longer exists; after the grace loop, if the process still exists it is
SIGKILLed and the blocking `waitpid(pid, NULL, 0)` reaps it, discarding the
status; finally `reap_if_finished` runs. -/
def stop_process (reg : Registry) (h : Int) (c : ChildState)
    (evolve : Nat → ChildState → ChildState) : StopOut :=
  if h < 0 ∨ 64 ≤ h then ⟨-1, reg, c, none⟩
  else if (reg h.toNat).used = false ∧ (reg h.toNat).exit_code ≠ -2 then
    ⟨0, reg, c, none⟩
  else if processExists c = false then ⟨0, reg, c, some (reg h.toNat).pid⟩
  else
    ⟨0,
     (reap_if_finished reg h
        (if processExists (graceLoop evolve 0 10 c) then ChildState.reaped
         else graceLoop evolve 0 10 c)).1,
     (reap_if_finished reg h
        (if processExists (graceLoop evolve 0 10 c) then ChildState.reaped
         else graceLoop evolve 0 10 c)).2,
     some (reg h.toNat).pid⟩

/-- One library call, as it mutates the registry.  The oracles (`SpawnOutcome`,
`ReadOutcome`, `ChildState`, the scheduler of `stop_process`) are free. -/
inductive Step : Registry → Registry → Prop where
  | start (reg : Registry) (pn an : Bool) (os : SpawnOutcome) :
      Step reg (start_process reg pn an os).2
  | rdOut (reg : Registry) (h : Int) (bn : Bool) (len : Int) (rr : ReadOutcome) :
      Step reg (read_stdout reg h bn len rr).2
  | rdErr (reg : Registry) (h : Int) (bn : Bool) (len : Int) (rr : ReadOutcome) :
      Step reg (read_stderr reg h bn len rr).2
  | doReap (reg : Registry) (h : Int) (c : ChildState) :
      Step reg (reap_if_finished reg h c).1
  | obsRun (reg : Registry) (h : Int) (c : ChildState) :
      Step reg (is_running reg h c).2.1
  | obsCode (reg : Registry) (h : Int) (c : ChildState) :
      Step reg (get_exit_code reg h c).2.1
  | doStop (reg : Registry) (h : Int) (c : ChildState)
      (evolve : Nat → ChildState → ChildState) :
      Step reg (stop_process reg h c evolve).reg

/-- Registry states reachable from the zero-initialised table. -/
inductive Reachable : Registry → Prop where
  | init : Reachable initReg
  | step {r r' : Registry} : Reachable r → Step r r' → Reachable r'

/-! Concrete reachable states used by counterexamples and witnesses. -/

/-- After one successful `start_process`: slot 0 holds a running child with
pid 5 and read ends 3 and 4. -/
def exReg1 : Registry :=
  (start_process initReg false false (SpawnOutcome.ok 5 3 4)).2

/-- The child of slot 0 exited with status 0 and was reaped:
`exit_code = 0`, both pipes still open. -/
def exReg2 : Registry :=
  (reap_if_finished exReg1 0 (ChildState.zombie (WaitStatus.exited 0))).1

/-- `read_stderr` observed EOF on slot 0: `stderr_fd = -1`, stdout open. -/
def exReg3 : Registry :=
  (read_stderr exReg2 0 false 8 ReadOutcome.eof).2

/-- `read_stdout` observed EOF on slot 0: both endpoints closed,
`exit_code = 0 >= 0`, so `maybe_clear_slot_after_eof` reclaims the slot. -/
def exReg4 : Registry :=
  (read_stdout exReg3 0 false 8 ReadOutcome.eof).2

/-- `read_stderr` observed EOF on slot 0 of `exReg1` while the child was
still running: `stderr_fd = -1`, stdout open, `exit_code = -2`. -/
def exErr2 : Registry :=
  (read_stderr exReg1 0 false 8 ReadOutcome.eof).2

/-- `reap_if_finished` on slot 0 of `exErr2` when `waitpid` fails (the child
was already waited for elsewhere, e.g. by a prior `stop_process`):
`exit_code = -1` (Error), slot still in use, stdout still open. -/
def exErr3 : Registry :=
  (reap_if_finished exErr2 0 ChildState.reaped).1

/-- The scheduler of scenario S4: the child exits with status 0 during the
first sleep of the grace loop. -/
def evGrace : Nat → ChildState → ChildState :=
  fun i c => if i = 0 then ChildState.zombie (WaitStatus.exited 0) else c

/-- The scheduler of scenario S5: the child ignores SIGTERM and never dies
on its own. -/
def evIgnore : Nat → ChildState → ChildState :=
  fun _ c => c

/-! The free-slot invariant (amended invariant 1 of the specification):
a slot that is not in use always has a terminal `exit_code` (never `-2`),
and each of its pipe-endpoint fields is at most `0`: either `-1` (recorded
closed) or still the zero initial value of the static table. -/

/-- Invariant of a single free slot. -/
def SlotRInv (e : ProcEntry) : Prop :=
  e.used = false → e.exit_code ≠ -2 ∧ e.stdout_fd ≤ 0 ∧ e.stderr_fd ≤ 0

/-- The free-slot invariant, for every slot of the table. -/
def RegInv (reg : Registry) : Prop :=
  ∀ i, SlotRInv (reg i)

@[simp]
theorem updateReg_same (reg : Registry) (i : Nat) (e : ProcEntry) :
    updateReg reg i e i = e := by
  simp [updateReg]

theorem updateReg_other (reg : Registry) (i j : Nat) (e : ProcEntry)
    (h : j ≠ i) : updateReg reg i e j = reg j := by
  simp [updateReg, h]

theorem reach_exReg1 : Reachable exReg1 :=
  Reachable.step Reachable.init
    (Step.start initReg false false (SpawnOutcome.ok 5 3 4))

theorem reach_exReg2 : Reachable exReg2 :=
  Reachable.step reach_exReg1
    (Step.doReap exReg1 0 (ChildState.zombie (WaitStatus.exited 0)))

theorem reach_exReg3 : Reachable exReg3 :=
  Reachable.step reach_exReg2 (Step.rdErr exReg2 0 false 8 ReadOutcome.eof)

theorem reach_exReg4 : Reachable exReg4 :=
  Reachable.step reach_exReg3 (Step.rdOut exReg3 0 false 8 ReadOutcome.eof)

theorem reach_exErr2 : Reachable exErr2 :=
  Reachable.step reach_exReg1 (Step.rdErr exReg1 0 false 8 ReadOutcome.eof)

theorem reach_exErr3 : Reachable exErr3 :=
  Reachable.step reach_exErr2 (Step.doReap exErr2 0 ChildState.reaped)

/-! Helper lemmas: the slot scan of `start_process`. -/

theorem firstFreeAux_some {reg : Registry} {i fuel j : Nat}
    (h : firstFreeAux reg i fuel = some j) :
    i ≤ j ∧ j < i + fuel ∧ (reg j).used = false ∧
      ∀ k, i ≤ k → k < j → (reg k).used = true := by
  induction fuel generalizing i with
  | zero => simp [firstFreeAux] at h
  | succ n ih =>
    rw [firstFreeAux] at h
    cases hu : (reg i).used with
    | false =>
      simp [hu] at h
      subst h
      exact ⟨le_refl i, by omega, hu, fun k hk1 hk2 => absurd hk1 (by omega)⟩
    | true =>
      simp [hu] at h
      obtain ⟨h1, h2, h3, h4⟩ := ih h
      refine ⟨by omega, by omega, h3, ?_⟩
      intro k hk1 hk2
      rcases Nat.lt_or_ge k (i + 1) with hk | hk
      · have : k = i := by omega
        subst this
        exact hu
      · exact h4 k hk hk2

theorem firstFreeAux_none {reg : Registry} {i fuel : Nat}
    (h : ∀ k, i ≤ k → k < i + fuel → (reg k).used = true) :
    firstFreeAux reg i fuel = none := by
  induction fuel generalizing i with
  | zero => rfl
  | succ n ih =>
    rw [firstFreeAux]
    have hu : (reg i).used = true := h i (le_refl i) (by omega)
    simp [hu]
    exact ih (fun k hk1 hk2 => h k (by omega) (by omega))

theorem firstFree_some {reg : Registry} {j : Nat}
    (h : firstFree reg = some j) :
    j < 64 ∧ (reg j).used = false ∧ ∀ k, k < j → (reg k).used = true := by
  have hM : MAX_PROCS = 64 := rfl
  obtain ⟨_, h2, h3, h4⟩ := firstFreeAux_some h
  exact ⟨by omega, h3, fun k hk => h4 k (Nat.zero_le k) hk⟩

theorem firstFree_none {reg : Registry}
    (h : ∀ i, i < 64 → (reg i).used = true) : firstFree reg = none := by
  have hM : MAX_PROCS = 64 := rfl
  exact firstFreeAux_none (fun k _ hk2 => h k (by omega))

/-! Helper lemmas: shapes of the registry mutations. -/

theorem start_shape (reg : Registry) (pn an : Bool) (os : SpawnOutcome) :
    (start_process reg pn an os).2 = reg ∨
      ∃ idx pid ofd efd, idx < 64 ∧ (reg idx).used = false ∧
        (start_process reg pn an os).1 = (idx : Int) ∧
        (start_process reg pn an os).2 =
          updateReg reg idx ⟨true, pid, (ofd : Int), (efd : Int), -2⟩ := by
  unfold start_process
  split_ifs with h1
  · exact Or.inl rfl
  · cases hf : firstFree reg with
    | none => exact Or.inl rfl
    | some idx =>
      cases os with
      | fail => exact Or.inl rfl
      | ok pid ofd efd =>
        obtain ⟨hlt, hfree, _⟩ := firstFree_some hf
        exact Or.inr ⟨idx, pid, ofd, efd, hlt, hfree, rfl, rfl⟩

theorem maybe_clear_shape (reg : Registry) (h : Int) :
    maybe_clear_slot_after_eof reg h = reg ∨
      ((reg h.toNat).used = true ∧ (reg h.toNat).stdout_fd < 0 ∧
        (reg h.toNat).stderr_fd < 0 ∧ 0 ≤ (reg h.toNat).exit_code ∧
        maybe_clear_slot_after_eof reg h =
          updateReg reg h.toNat { reg h.toNat with used := false }) := by
  unfold maybe_clear_slot_after_eof
  split_ifs with h1 h2 h3
  · exact Or.inl rfl
  · exact Or.inl rfl
  · exact Or.inr ⟨by simpa using h2, h3.1, h3.2.1, h3.2.2, rfl⟩
  · exact Or.inl rfl

theorem reap_shape (reg : Registry) (h : Int) (c : ChildState) :
    (reap_if_finished reg h c).1 = reg ∨
      ((reg h.toNat).used = true ∧ (reg h.toNat).exit_code = -2 ∧
        ∃ x : Int, (reap_if_finished reg h c).1 =
          updateReg reg h.toNat { reg h.toNat with exit_code := x }) := by
  unfold reap_if_finished
  split_ifs with h1 h2
  · exact Or.inl rfl
  · exact Or.inl rfl
  · have hu : (reg h.toNat).used = true := by
      rcases Bool.eq_false_or_eq_true (reg h.toNat).used with ht | hf
      · exact ht
      · exact absurd (Or.inl hf) h2
    have he : (reg h.toNat).exit_code = -2 := by
      by_contra hne
      exact h2 (Or.inr hne)
    cases c with
    | alive => exact Or.inl rfl
    | zombie st => exact Or.inr ⟨hu, he, encodeWait st, rfl⟩
    | reaped => exact Or.inr ⟨hu, he, -1, rfl⟩

theorem reap_noop (reg : Registry) (h : Int) (c : ChildState)
    (hne : (reg h.toNat).exit_code ≠ -2) :
    reap_if_finished reg h c = (reg, c) := by
  unfold reap_if_finished
  split_ifs with h1 h2
  · rfl
  · rfl
  · exact absurd (Or.inr hne) h2

theorem read_stdout_shape (reg : Registry) (h : Int) (bn : Bool) (len : Int)
    (rr : ReadOutcome) :
    (read_stdout reg h bn len rr).2 = reg ∨
      (0 ≤ h ∧ h < 64 ∧ 0 ≤ (reg h.toNat).stdout_fd ∧
        (read_stdout reg h bn len rr).2 =
          maybe_clear_slot_after_eof
            (updateReg reg h.toNat { reg h.toNat with stdout_fd := -1 }) h) := by
  unfold read_stdout
  split_ifs with h1 h2 h3 h4
  · exact Or.inl rfl
  · exact Or.inl rfl
  · exact Or.inl rfl
  · cases rr with
    | data n => exact Or.inl rfl
    | wouldBlock => exact Or.inl rfl
    | readErr => exact Or.inl rfl
    | eof => exact Or.inr ⟨by omega, by omega, h4, rfl⟩
  · exact absurd (le_of_not_lt h3) h4

theorem read_stderr_shape (reg : Registry) (h : Int) (bn : Bool) (len : Int)
    (rr : ReadOutcome) :
    (read_stderr reg h bn len rr).2 = reg ∨
      (0 ≤ h ∧ h < 64 ∧ 0 ≤ (reg h.toNat).stderr_fd ∧
        (read_stderr reg h bn len rr).2 =
          maybe_clear_slot_after_eof
            (updateReg reg h.toNat { reg h.toNat with stderr_fd := -1 }) h) := by
  unfold read_stderr
  split_ifs with h1 h2 h3 h4
  · exact Or.inl rfl
  · exact Or.inl rfl
  · exact Or.inl rfl
  · cases rr with
    | data n => exact Or.inl rfl
    | wouldBlock => exact Or.inl rfl
    | readErr => exact Or.inl rfl
    | eof => exact Or.inr ⟨by omega, by omega, h4, rfl⟩
  · exact absurd (le_of_not_lt h3) h4

theorem is_running_reg (reg : Registry) (h : Int) (c : ChildState) :
    (is_running reg h c).2.1 = reg ∨
      (is_running reg h c).2.1 = (reap_if_finished reg h c).1 := by
  unfold is_running
  split_ifs with h1 h2
  · exact Or.inl rfl
  · exact Or.inr rfl
  · exact Or.inr rfl

theorem get_exit_code_reg (reg : Registry) (h : Int) (c : ChildState) :
    (get_exit_code reg h c).2.1 = reg ∨
      (get_exit_code reg h c).2.1 = (reap_if_finished reg h c).1 := by
  unfold get_exit_code
  split_ifs with h1
  · exact Or.inl rfl
  · exact Or.inr rfl

theorem stop_reg_shape (reg : Registry) (h : Int) (c : ChildState)
    (evolve : Nat → ChildState → ChildState) :
    (stop_process reg h c evolve).reg = reg ∨
      ∃ c', (stop_process reg h c evolve).reg = (reap_if_finished reg h c').1 := by
  unfold stop_process
  split_ifs with h1 h2 h3 h4
  · exact Or.inl rfl
  · exact Or.inl rfl
  · exact Or.inl rfl
  · exact Or.inr ⟨_, rfl⟩
  · exact Or.inr ⟨_, rfl⟩

/-! Helper lemmas: pointwise effect on single fields. -/

theorem maybe_clear_exit_code (reg : Registry) (h : Int) (i : Nat) :
    ((maybe_clear_slot_after_eof reg h) i).exit_code = (reg i).exit_code := by
  rcases maybe_clear_shape reg h with hs | ⟨_, _, _, _, hs⟩ <;> rw [hs]
  by_cases hi : i = h.toNat
  · subst hi; simp [updateReg]
  · rw [updateReg_other _ _ _ _ hi]

theorem maybe_clear_pid (reg : Registry) (h : Int) (i : Nat) :
    ((maybe_clear_slot_after_eof reg h) i).pid = (reg i).pid := by
  rcases maybe_clear_shape reg h with hs | ⟨_, _, _, _, hs⟩ <;> rw [hs]
  by_cases hi : i = h.toNat
  · subst hi; simp [updateReg]
  · rw [updateReg_other _ _ _ _ hi]

theorem read_stdout_exit_code (reg : Registry) (h : Int) (bn : Bool)
    (len : Int) (rr : ReadOutcome) (i : Nat) :
    (((read_stdout reg h bn len rr).2) i).exit_code = (reg i).exit_code := by
  rcases read_stdout_shape reg h bn len rr with hs | ⟨_, _, _, hs⟩ <;> rw [hs]
  rw [maybe_clear_exit_code]
  by_cases hi : i = h.toNat
  · subst hi; simp [updateReg]
  · rw [updateReg_other _ _ _ _ hi]

theorem read_stderr_exit_code (reg : Registry) (h : Int) (bn : Bool)
    (len : Int) (rr : ReadOutcome) (i : Nat) :
    (((read_stderr reg h bn len rr).2) i).exit_code = (reg i).exit_code := by
  rcases read_stderr_shape reg h bn len rr with hs | ⟨_, _, _, hs⟩ <;> rw [hs]
  rw [maybe_clear_exit_code]
  by_cases hi : i = h.toNat
  · subst hi; simp [updateReg]
  · rw [updateReg_other _ _ _ _ hi]

theorem reap_frame (reg : Registry) (h : Int) (c : ChildState) (i : Nat) :
    (((reap_if_finished reg h c).1 i).used = ((reg i)).used ∧
     ((reap_if_finished reg h c).1 i).pid = ((reg i)).pid ∧
     ((reap_if_finished reg h c).1 i).stdout_fd = ((reg i)).stdout_fd ∧
     ((reap_if_finished reg h c).1 i).stderr_fd = ((reg i)).stderr_fd) := by
  rcases reap_shape reg h c with hs | ⟨_, _, x, hs⟩ <;> rw [hs]
  · exact ⟨rfl, rfl, rfl, rfl⟩
  · by_cases hi : i = h.toNat
    · subst hi; simp [updateReg]
    · rw [updateReg_other _ _ _ _ hi]; exact ⟨rfl, rfl, rfl, rfl⟩

theorem reap_exit_code_frame (reg : Registry) (h : Int) (c : ChildState)
    (i : Nat) (hne : (reg i).exit_code ≠ -2) :
    ((reap_if_finished reg h c).1 i).exit_code = (reg i).exit_code := by
  rcases reap_shape reg h c with hs | ⟨hu, he, x, hs⟩ <;> rw [hs]
  by_cases hi : i = h.toNat
  · subst hi; exact absurd he hne
  · rw [updateReg_other _ _ _ _ hi]

theorem regInv_init : RegInv initReg := by
  intro i
  intro _
  refine ⟨?_, ?_, ?_⟩
  · show (0 : Int) ≠ -2
    norm_num
  · show (0 : Int) ≤ 0
    norm_num
  · show (0 : Int) ≤ 0
    norm_num

theorem regInv_update (hq : RegInv reg) (i : Nat) (e : ProcEntry)
    (he : SlotRInv e) : RegInv (updateReg reg i e) := by
  intro j
  by_cases hj : j = i
  · subst hj; rw [updateReg_same]; exact he
  · rw [updateReg_other _ _ _ _ hj]; exact hq j

theorem regInv_maybe_clear (hq : RegInv reg) (h : Int) :
    RegInv (maybe_clear_slot_after_eof reg h) := by
  rcases maybe_clear_shape reg h with hs | ⟨hu, ho, he, hc, hs⟩ <;> rw [hs]
  · exact hq
  · refine regInv_update hq _ _ ?_
    intro _
    refine ⟨?_, ?_, ?_⟩
    · show (reg h.toNat).exit_code ≠ -2
      omega
    · show (reg h.toNat).stdout_fd ≤ 0
      omega
    · show (reg h.toNat).stderr_fd ≤ 0
      omega

theorem regInv_reap (hq : RegInv reg) (h : Int) (c : ChildState) :
    RegInv (reap_if_finished reg h c).1 := by
  rcases reap_shape reg h c with hs | ⟨hu, he, x, hs⟩ <;> rw [hs]
  · exact hq
  · refine regInv_update hq _ _ ?_
    intro hfalse
    have hf : (reg h.toNat).used = false := hfalse
    rw [hu] at hf
    cases hf

theorem regInv_read_stdout (hq : RegInv reg) (h : Int) (bn : Bool) (len : Int)
    (rr : ReadOutcome) : RegInv (read_stdout reg h bn len rr).2 := by
  rcases read_stdout_shape reg h bn len rr with hs | ⟨_, _, _, hs⟩ <;> rw [hs]
  · exact hq
  · refine regInv_maybe_clear ?_ h
    refine regInv_update hq _ _ ?_
    intro hfalse
    have hf : (reg h.toNat).used = false := hfalse
    have hinv := hq h.toNat hf
    refine ⟨?_, ?_, ?_⟩
    · show (reg h.toNat).exit_code ≠ -2
      exact hinv.1
    · show (-1 : Int) ≤ 0
      norm_num
    · show (reg h.toNat).stderr_fd ≤ 0
      exact hinv.2.2

theorem regInv_read_stderr (hq : RegInv reg) (h : Int) (bn : Bool) (len : Int)
    (rr : ReadOutcome) : RegInv (read_stderr reg h bn len rr).2 := by
  rcases read_stderr_shape reg h bn len rr with hs | ⟨_, _, _, hs⟩ <;> rw [hs]
  · exact hq
  · refine regInv_maybe_clear ?_ h
    refine regInv_update hq _ _ ?_
    intro hfalse
    have hf : (reg h.toNat).used = false := hfalse
    have hinv := hq h.toNat hf
    refine ⟨?_, ?_, ?_⟩
    · show (reg h.toNat).exit_code ≠ -2
      exact hinv.1
    · show (reg h.toNat).stdout_fd ≤ 0
      exact hinv.2.1
    · show (-1 : Int) ≤ 0
      norm_num

theorem regInv_start (hq : RegInv reg) (pn an : Bool) (os : SpawnOutcome) :
    RegInv (start_process reg pn an os).2 := by
  rcases start_shape reg pn an os with hs | ⟨idx, pid, ofd, efd, _, _, _, hs⟩ <;>
    rw [hs]
  · exact hq
  · refine regInv_update hq _ _ ?_
    intro hfalse
    have hf : true = false := hfalse
    cases hf

theorem regInv_step {reg reg' : Registry} (hq : RegInv reg)
    (hs : Step reg reg') : RegInv reg' := by
  cases hs with
  | start pn an os => exact regInv_start hq pn an os
  | rdOut h bn len rr => exact regInv_read_stdout hq h bn len rr
  | rdErr h bn len rr => exact regInv_read_stderr hq h bn len rr
  | doReap h c => exact regInv_reap hq h c
  | obsRun h c =>
    rcases is_running_reg reg h c with he | he <;> rw [he]
    · exact hq
    · exact regInv_reap hq h c
  | obsCode h c =>
    rcases get_exit_code_reg reg h c with he | he <;> rw [he]
    · exact hq
    · exact regInv_reap hq h c
  | doStop h c evolve =>
    rcases stop_reg_shape reg h c evolve with he | ⟨c', he⟩ <;> rw [he]
    · exact hq
    · exact regInv_reap hq h c'

theorem regInv_reachable {reg : Registry} (hr : Reachable reg) : RegInv reg := by
  induction hr with
  | init => exact regInv_init
  | step hr hs ih => exact regInv_step ih hs

/-- Effect of one operation on a terminal `exit_code`: it is preserved
unless the operation is a `start_process` that reallocates the (free)
slot, resetting it to `-2`. -/
theorem step_exit_code {reg reg' : Registry} (hs : Step reg reg') (i : Nat)
    (hne : (reg i).exit_code ≠ -2) :
    (reg' i).exit_code = (reg i).exit_code ∨
      ((reg i).used = false ∧ (reg' i).used = true ∧
        (reg' i).exit_code = -2) := by
  cases hs with
  | start pn an os =>
    rcases start_shape reg pn an os with he | ⟨idx, pid, ofd, efd, _, hfree, _, he⟩ <;>
      rw [he]
    · exact Or.inl rfl
    · by_cases hi : i = idx
      · subst hi
        exact Or.inr ⟨hfree, by simp [updateReg], by simp [updateReg]⟩
      · rw [updateReg_other _ _ _ _ hi]; exact Or.inl rfl
  | rdOut h bn len rr => exact Or.inl (read_stdout_exit_code reg h bn len rr i)
  | rdErr h bn len rr => exact Or.inl (read_stderr_exit_code reg h bn len rr i)
  | doReap h c => exact Or.inl (reap_exit_code_frame reg h c i hne)
  | obsRun h c =>
    rcases is_running_reg reg h c with he | he <;> rw [he]
    · exact Or.inl rfl
    · exact Or.inl (reap_exit_code_frame reg h c i hne)
  | obsCode h c =>
    rcases get_exit_code_reg reg h c with he | he <;> rw [he]
    · exact Or.inl rfl
    · exact Or.inl (reap_exit_code_frame reg h c i hne)
  | doStop h c evolve =>
    rcases stop_reg_shape reg h c evolve with he | ⟨c', he⟩ <;> rw [he]
    · exact Or.inl rfl
    · exact Or.inl (reap_exit_code_frame reg h c' i hne)

/-! Helper lemmas: `stop_process` and `reap_if_finished` evaluation. -/

theorem reap_guard_noop {reg : Registry} {h : Int} (c : ChildState)
    (hg : (reg h.toNat).used = false ∨ (reg h.toNat).exit_code ≠ -2) :
    reap_if_finished reg h c = (reg, c) := by
  unfold reap_if_finished
  split_ifs with h1 <;> rfl

theorem stop_ret_zero (reg : Registry) (h : Int) (c : ChildState)
    (evolve : Nat → ChildState → ChildState) (h0 : 0 ≤ h) (h64 : h < 64) :
    (stop_process reg h c evolve).ret = 0 := by
  unfold stop_process
  split_ifs with h1 h2 h3 h4 <;>
    first
    | rfl
    | (rcases h1 with h1 | h1 <;> omega)

theorem stop_preserves_terminal (reg : Registry) (h : Int) (c : ChildState)
    (evolve : Nat → ChildState → ChildState)
    (hne : (reg h.toNat).exit_code ≠ -2) :
    (stop_process reg h c evolve).reg = reg := by
  rcases stop_reg_shape reg h c evolve with he | ⟨c', he⟩
  · exact he
  · rw [he, reap_guard_noop c' (Or.inr hne)]

theorem maybe_clear_stdout_fd (reg : Registry) (h : Int) (i : Nat) :
    ((maybe_clear_slot_after_eof reg h) i).stdout_fd = (reg i).stdout_fd := by
  rcases maybe_clear_shape reg h with hs | ⟨_, _, _, _, hs⟩ <;> rw [hs]
  by_cases hi : i = h.toNat
  · subst hi; simp [updateReg]
  · rw [updateReg_other _ _ _ _ hi]

theorem maybe_clear_stderr_fd (reg : Registry) (h : Int) (i : Nat) :
    ((maybe_clear_slot_after_eof reg h) i).stderr_fd = (reg i).stderr_fd := by
  rcases maybe_clear_shape reg h with hs | ⟨_, _, _, _, hs⟩ <;> rw [hs]
  by_cases hi : i = h.toNat
  · subst hi; simp [updateReg]
  · rw [updateReg_other _ _ _ _ hi]

theorem maybe_clear_used_iff (reg : Registry) (h : Int)
    (h0 : 0 ≤ h) (h64 : h < 64) (hu : (reg h.toNat).used = true) :
    (((maybe_clear_slot_after_eof reg h) h.toNat).used = false ↔
      ((reg h.toNat).stdout_fd < 0 ∧ (reg h.toNat).stderr_fd < 0 ∧
        0 ≤ (reg h.toNat).exit_code)) := by
  have hr : ¬(h < 0 ∨ 64 ≤ h) := by omega
  have hnu : ¬((reg h.toNat).used = false) := by
    rw [hu]; exact fun hx => Bool.noConfusion hx
  unfold maybe_clear_slot_after_eof
  rw [if_neg hr, if_neg hnu]
  by_cases hc : (reg h.toNat).stdout_fd < 0 ∧ (reg h.toNat).stderr_fd < 0 ∧
      0 ≤ (reg h.toNat).exit_code
  · rw [if_pos hc, updateReg_same]
    exact iff_of_true rfl hc
  · rw [if_neg hc]
    exact iff_of_false hnu hc

theorem read_stdout_eof_eq (reg : Registry) (h : Int) (len : Int)
    (h0 : 0 ≤ h) (h64 : h < 64) (hlen : 0 < len)
    (hfd : 0 ≤ (reg h.toNat).stdout_fd) :
    (read_stdout reg h false len ReadOutcome.eof).2 =
      maybe_clear_slot_after_eof
        (updateReg reg h.toNat { reg h.toNat with stdout_fd := -1 }) h := by
  have hb : ¬(false = true ∨ len ≤ 0) := by
    intro hx
    rcases hx with hx | hx
    · exact Bool.noConfusion hx
    · omega
  have hr : ¬(h < 0 ∨ 64 ≤ h) := by omega
  unfold read_stdout
  rw [if_neg hb, if_neg hr, if_neg (not_lt.mpr hfd)]
  dsimp only
  rw [if_pos hfd]

theorem read_stderr_eof_eq (reg : Registry) (h : Int) (len : Int)
    (h0 : 0 ≤ h) (h64 : h < 64) (hlen : 0 < len)
    (hfd : 0 ≤ (reg h.toNat).stderr_fd) :
    (read_stderr reg h false len ReadOutcome.eof).2 =
      maybe_clear_slot_after_eof
        (updateReg reg h.toNat { reg h.toNat with stderr_fd := -1 }) h := by
  have hb : ¬(false = true ∨ len ≤ 0) := by
    intro hx
    rcases hx with hx | hx
    · exact Bool.noConfusion hx
    · omega
  have hr : ¬(h < 0 ∨ 64 ≤ h) := by omega
  unfold read_stderr
  rw [if_neg hb, if_neg hr, if_neg (not_lt.mpr hfd)]
  dsimp only
  rw [if_pos hfd]

theorem read_stdout_invalid (reg : Registry) (h : Int) (bn : Bool) (len : Int)
    (rr : ReadOutcome) (hinv : bn = true ∨ len ≤ 0 ∨ h < 0 ∨ 64 ≤ h) :
    (read_stdout reg h bn len rr).1 = -1 := by
  unfold read_stdout
  rcases hinv with hv | hv | hv | hv
  · rw [if_pos (Or.inl hv)]
  · rw [if_pos (Or.inr hv)]
  · by_cases hb : bn = true ∨ len ≤ 0
    · rw [if_pos hb]
    · rw [if_neg hb, if_pos (Or.inl hv)]
  · by_cases hb : bn = true ∨ len ≤ 0
    · rw [if_pos hb]
    · rw [if_neg hb, if_pos (Or.inr hv)]

theorem read_stderr_invalid (reg : Registry) (h : Int) (bn : Bool) (len : Int)
    (rr : ReadOutcome) (hinv : bn = true ∨ len ≤ 0 ∨ h < 0 ∨ 64 ≤ h) :
    (read_stderr reg h bn len rr).1 = -1 := by
  unfold read_stderr
  rcases hinv with hv | hv | hv | hv
  · rw [if_pos (Or.inl hv)]
  · rw [if_pos (Or.inr hv)]
  · by_cases hb : bn = true ∨ len ≤ 0
    · rw [if_pos hb]
    · rw [if_neg hb, if_pos (Or.inl hv)]
  · by_cases hb : bn = true ∨ len ≤ 0
    · rw [if_pos hb]
    · rw [if_neg hb, if_pos (Or.inr hv)]

theorem read_stdout_closed (reg : Registry) (h : Int) (len : Int)
    (rr : ReadOutcome) (hlen : 0 < len) (h0 : 0 ≤ h) (h64 : h < 64)
    (hfd : (reg h.toNat).stdout_fd < 0) :
    read_stdout reg h false len rr = (0, reg) := by
  have hb : ¬(false = true ∨ len ≤ 0) := by
    intro hx
    rcases hx with hx | hx
    · exact Bool.noConfusion hx
    · omega
  have hr : ¬(h < 0 ∨ 64 ≤ h) := by omega
  unfold read_stdout
  rw [if_neg hb, if_neg hr, if_pos hfd]

theorem read_stderr_closed (reg : Registry) (h : Int) (len : Int)
    (rr : ReadOutcome) (hlen : 0 < len) (h0 : 0 ≤ h) (h64 : h < 64)
    (hfd : (reg h.toNat).stderr_fd < 0) :
    read_stderr reg h false len rr = (0, reg) := by
  have hb : ¬(false = true ∨ len ≤ 0) := by
    intro hx
    rcases hx with hx | hx
    · exact Bool.noConfusion hx
    · omega
  have hr : ¬(h < 0 ∨ 64 ≤ h) := by omega
  unfold read_stderr
  rw [if_neg hb, if_neg hr, if_pos hfd]

theorem read_stdout_open_ret (reg : Registry) (h : Int) (len : Int)
    (rr : ReadOutcome) (hlen : 0 < len) (h0 : 0 ≤ h) (h64 : h < 64)
    (hfd : 0 ≤ (reg h.toNat).stdout_fd) :
    (read_stdout reg h false len rr).1 =
      (match rr with
       | .data n => (n : Int)
       | .eof => 0
       | .wouldBlock => 0
       | .readErr => -1) := by
  have hb : ¬(false = true ∨ len ≤ 0) := by
    intro hx
    rcases hx with hx | hx
    · exact Bool.noConfusion hx
    · omega
  have hr : ¬(h < 0 ∨ 64 ≤ h) := by omega
  unfold read_stdout
  rw [if_neg hb, if_neg hr, if_neg (not_lt.mpr hfd)]
  cases rr with
  | data n => rfl
  | eof =>
    dsimp only
    rw [if_pos hfd]
  | wouldBlock => rfl
  | readErr => rfl

theorem read_stderr_open_ret (reg : Registry) (h : Int) (len : Int)
    (rr : ReadOutcome) (hlen : 0 < len) (h0 : 0 ≤ h) (h64 : h < 64)
    (hfd : 0 ≤ (reg h.toNat).stderr_fd) :
    (read_stderr reg h false len rr).1 =
      (match rr with
       | .data n => (n : Int)
       | .eof => 0
       | .wouldBlock => 0
       | .readErr => -1) := by
  have hb : ¬(false = true ∨ len ≤ 0) := by
    intro hx
    rcases hx with hx | hx
    · exact Bool.noConfusion hx
    · omega
  have hr : ¬(h < 0 ∨ 64 ≤ h) := by omega
  unfold read_stderr
  rw [if_neg hb, if_neg hr, if_neg (not_lt.mpr hfd)]
  cases rr with
  | data n => rfl
  | eof =>
    dsimp only
    rw [if_pos hfd]
  | wouldBlock => rfl
  | readErr => rfl

theorem get_exit_code_invalid (reg : Registry) (h : Int) (c : ChildState)
    (hr : h < 0 ∨ 64 ≤ h) : (get_exit_code reg h c).1 = -1 := by
  unfold get_exit_code
  rw [if_pos hr]

theorem get_exit_code_val (reg : Registry) (h : Int) (c : ChildState)
    (hr : ¬(h < 0 ∨ 64 ≤ h)) :
    (get_exit_code reg h c).1
      = ((reap_if_finished reg h c).1 h.toNat).exit_code := by
  unfold get_exit_code
  rw [if_neg hr]

theorem reap_commit (reg : Registry) (h : Int) (c : ChildState)
    (hr : ¬(h < 0 ∨ 64 ≤ h)) (hu : (reg h.toNat).used = true)
    (he : (reg h.toNat).exit_code = -2) :
    (reap_if_finished reg h c).1 =
      (match (waitpidNohang c).1 with
       | .finished st =>
         updateReg reg h.toNat { reg h.toNat with exit_code := encodeWait st }
       | .waitErr =>
         updateReg reg h.toNat { reg h.toNat with exit_code := -1 }
       | .noChange => reg) := by
  have hg : ¬((reg h.toNat).used = false ∨ (reg h.toNat).exit_code ≠ -2) := by
    intro hx
    rcases hx with hx | hx
    · rw [hu] at hx; exact Bool.noConfusion hx
    · exact hx he
  unfold reap_if_finished
  rw [if_neg hr, if_neg hg, if_neg hg]
  cases c <;> rfl

/-! Claim theorems. -/

/-- Claim C7: `start_process` allocates the lowest-index free slot and
returns that index (hence every successful handle satisfies
`0 <= h < 64`, the slot was free, every lower slot was in use, and the
returned slot is now marked used); when all 64 slots are in use it returns
`-1` and leaves the registry unchanged. -/
theorem C7_start_alloc (reg : Registry) (pn an : Bool) (os : SpawnOutcome) :
    ((start_process reg pn an os).1 ≠ -1 →
      0 ≤ (start_process reg pn an os).1 ∧ (start_process reg pn an os).1 < 64 ∧
      (reg (start_process reg pn an os).1.toNat).used = false ∧
      (∀ j, j < (start_process reg pn an os).1.toNat → (reg j).used = true) ∧
      ((start_process reg pn an os).2 (start_process reg pn an os).1.toNat).used
        = true) ∧
    ((∀ i, i < 64 → (reg i).used = true) →
      (start_process reg pn an os).1 = -1 ∧ (start_process reg pn an os).2 = reg) := by
  constructor
  · unfold start_process
    split_ifs with h1
    · intro hne
      exact absurd rfl hne
    · cases hf : firstFree reg with
      | none =>
        intro hne
        exact absurd rfl hne
      | some idx =>
        cases os with
        | fail =>
          intro hne
          exact absurd rfl hne
        | ok pid ofd efd =>
          intro _
          obtain ⟨hlt, hfree, hmin⟩ := firstFree_some hf
          have hto : ((idx : Int)).toNat = idx := by omega
          dsimp only
          refine ⟨by omega, by omega, ?_, ?_, ?_⟩
          · rw [hto]; exact hfree
          · rw [hto]; exact hmin
          · rw [hto, updateReg_same]
  · intro hall
    have hf := firstFree_none hall
    unfold start_process
    split_ifs with h1
    · exact ⟨rfl, rfl⟩
    · rw [hf]
      exact ⟨rfl, rfl⟩

/-- Claim C7, witness: on the zero-initialised table a successful spawn
returns handle 0, which is in range, was free (all lower slots vacuously
used), and is marked used afterwards. -/
theorem C7_start_alloc_witness :
    (start_process initReg false false (SpawnOutcome.ok 5 3 4)).1 ≠ -1 ∧
    (0 ≤ (start_process initReg false false (SpawnOutcome.ok 5 3 4)).1 ∧
      (start_process initReg false false (SpawnOutcome.ok 5 3 4)).1 < 64 ∧
      (initReg
        (start_process initReg false false (SpawnOutcome.ok 5 3 4)).1.toNat).used
        = false ∧
      (∀ j, j < (start_process initReg false false (SpawnOutcome.ok 5 3 4)).1.toNat →
        (initReg j).used = true) ∧
      ((start_process initReg false false (SpawnOutcome.ok 5 3 4)).2
        (start_process initReg false false (SpawnOutcome.ok 5 3 4)).1.toNat).used
        = true) :=
  ⟨by decide,
   (C7_start_alloc initReg false false (SpawnOutcome.ok 5 3 4)).1 (by decide)⟩

/-- Claim C8: reaping modifies only the exit-state field (it never closes a
pipe endpoint, never clears `in_use`, never changes the pid), and once the
exit state is terminal a further reap leaves the whole state unchanged. -/
theorem C8_reap_frame (reg : Registry) (h : Int) (c : ChildState) (i : Nat) :
    (((reap_if_finished reg h c).1 i).used = (reg i).used ∧
     ((reap_if_finished reg h c).1 i).pid = (reg i).pid ∧
     ((reap_if_finished reg h c).1 i).stdout_fd = (reg i).stdout_fd ∧
     ((reap_if_finished reg h c).1 i).stderr_fd = (reg i).stderr_fd) ∧
    ((reg h.toNat).exit_code ≠ -2 → reap_if_finished reg h c = (reg, c)) :=
  ⟨reap_frame reg h c i, fun hne => reap_guard_noop c (Or.inr hne)⟩

/-- Claim C8, witness: on a slot already holding exit code 0 a further reap
is the identity, and the frame conditions hold there. -/
theorem C8_reap_frame_witness :
    (((reap_if_finished exReg2 0 ChildState.reaped).1 0).used = (exReg2 0).used ∧
     ((reap_if_finished exReg2 0 ChildState.reaped).1 0).pid = (exReg2 0).pid ∧
     ((reap_if_finished exReg2 0 ChildState.reaped).1 0).stdout_fd
        = (exReg2 0).stdout_fd ∧
     ((reap_if_finished exReg2 0 ChildState.reaped).1 0).stderr_fd
        = (exReg2 0).stderr_fd) ∧
    ((exReg2 0).exit_code ≠ -2 ∧
      reap_if_finished exReg2 0 ChildState.reaped = (exReg2, ChildState.reaped)) :=
  ⟨(C8_reap_frame exReg2 0 ChildState.reaped 0).1,
   by decide,
   (C8_reap_frame exReg2 0 ChildState.reaped 0).2 (by decide)⟩

/-- Claim C9: for every in-range handle, two successive `stop_process`
calls both return 0 (this holds for every child state and scheduler), and
when the first call left a terminal exit code the second call leaves the
whole registry — in particular `get_exit_code`'s stored value — unchanged. -/
theorem C9_stop_idempotent (reg : Registry) (h : Int)
    (c c' : ChildState) (evolve evolve' : Nat → ChildState → ChildState)
    (h0 : 0 ≤ h) (h64 : h < 64) :
    (stop_process reg h c evolve).ret = 0 ∧
    (stop_process (stop_process reg h c evolve).reg h c' evolve').ret = 0 ∧
    (((stop_process reg h c evolve).reg h.toNat).exit_code ≠ -2 →
      ((stop_process (stop_process reg h c evolve).reg h c' evolve').reg
          h.toNat).exit_code
        = ((stop_process reg h c evolve).reg h.toNat).exit_code) := by
  refine ⟨stop_ret_zero reg h c evolve h0 h64,
    stop_ret_zero _ h c' evolve' h0 h64, ?_⟩
  intro hne
  rw [stop_preserves_terminal _ h c' evolve' hne]

/-- Claim C9, witness: stopping the running child of slot 0 twice returns 0
both times and keeps the (terminal) exit code of the first stop. -/
theorem C9_stop_idempotent_witness :
    (stop_process exReg1 0 ChildState.alive evIgnore).ret = 0 ∧
    (stop_process (stop_process exReg1 0 ChildState.alive evIgnore).reg 0
        ChildState.reaped evIgnore).ret = 0 ∧
    ((stop_process exReg1 0 ChildState.alive evIgnore).reg 0).exit_code ≠ -2 ∧
    ((stop_process (stop_process exReg1 0 ChildState.alive evIgnore).reg 0
        ChildState.reaped evIgnore).reg 0).exit_code
      = ((stop_process exReg1 0 ChildState.alive evIgnore).reg 0).exit_code := by
  have hc := C9_stop_idempotent exReg1 0 ChildState.alive ChildState.reaped
    evIgnore evIgnore (by decide) (by decide)
  exact ⟨hc.1, hc.2.1, by decide, hc.2.2 (by decide)⟩

/-- Claim C10: `stop_process` short-circuits without issuing the SIGTERM
`kill` exactly when the slot is free with a terminal exit state; whenever
the slot is still in use — even with a terminal exit state and a child
that no longer exists — SIGTERM is sent to the stored pid. -/
theorem C10_stop_signals (reg : Registry) (h : Int) (c : ChildState)
    (evolve : Nat → ChildState → ChildState) (h0 : 0 ≤ h) (h64 : h < 64) :
    ((stop_process reg h c evolve).termSent = none ↔
      ((reg h.toNat).used = false ∧ (reg h.toNat).exit_code ≠ -2)) ∧
    ((reg h.toNat).used = true →
      (stop_process reg h c evolve).termSent = some (reg h.toNat).pid) := by
  unfold stop_process
  split_ifs with h1 h2 h3 h4
  · rcases h1 with h1 | h1 <;> omega
  · refine ⟨⟨fun _ => h2, fun _ => rfl⟩, ?_⟩
    intro hu
    rw [h2.1] at hu
    cases hu
  · refine ⟨⟨fun hn => hn.elim, fun hcon => absurd hcon h2⟩, fun _ => rfl⟩
  · refine ⟨⟨fun hn => hn.elim, fun hcon => absurd hcon h2⟩, fun _ => rfl⟩
  · refine ⟨⟨fun hn => hn.elim, fun hcon => absurd hcon h2⟩, fun _ => rfl⟩

/-- Claim C10, witness: slot 0 of `exErr3` is still in use with terminal
exit state `-1` and its child has already been waited for, yet `stop`
issues SIGTERM to the stored pid again. -/
theorem C10_stop_signals_witness :
    (exErr3 0).used = true ∧ (exErr3 0).exit_code = -1 ∧
    (stop_process exErr3 0 ChildState.reaped evIgnore).termSent
      = some ((exErr3 0).pid) :=
  ⟨by decide, by decide,
   (C10_stop_signals exErr3 0 ChildState.reaped evIgnore
     (by decide) (by decide)).2 (by decide)⟩

/-- Claim C1 (code bug): stopping a child that is running when `stop` is
called never records the child's actual termination status.  Both `waitpid`
calls inside `stop_process` — the grace-loop poll and the blocking wait
after SIGKILL — consume the status and discard it, so the final
`reap_if_finished` finds the child already reaped, its `waitpid` fails,
and `-1` is recorded.  Scenario S4 (child exits 0 inside the grace window)
yields `get_exit_code = -1`, not `0`; scenario S5 (child ignores SIGTERM
and is SIGKILLed) yields `-1`, not `137`. -/
theorem C1_stop_discards_status :
    (exReg1 0).used = true ∧ (exReg1 0).exit_code = -2 ∧
    Reachable exReg1 ∧
    (stop_process exReg1 0 ChildState.alive evGrace).ret = 0 ∧
    (get_exit_code (stop_process exReg1 0 ChildState.alive evGrace).reg 0
      (stop_process exReg1 0 ChildState.alive evGrace).child).1 = -1 ∧
    (get_exit_code (stop_process exReg1 0 ChildState.alive evGrace).reg 0
      (stop_process exReg1 0 ChildState.alive evGrace).child).1 ≠ 0 ∧
    (stop_process exReg1 0 ChildState.alive evIgnore).ret = 0 ∧
    (get_exit_code (stop_process exReg1 0 ChildState.alive evIgnore).reg 0
      (stop_process exReg1 0 ChildState.alive evIgnore).child).1 = -1 ∧
    (get_exit_code (stop_process exReg1 0 ChildState.alive evIgnore).reg 0
      (stop_process exReg1 0 ChildState.alive evIgnore).child).1 ≠ 137 := by
  refine ⟨?_, ?_, reach_exReg1, ?_, ?_, ?_, ?_, ?_, ?_⟩ <;> decide

/-- Claim C2, counterexample: slot 0 of the reachable state `exErr3` is in
use with exit state Error (`-1`), its stderr endpoint already closed and
stdout still open.  When `read_stdout` observes EOF and closes the last
open endpoint, both endpoints are closed and the exit state is terminal
(not Running), yet the slot is not freed: `exit_code = -1` fails the
`exit_code >= 0` test of `maybe_clear_slot_after_eof`. -/
theorem C2_error_slot_not_freed :
    Reachable exErr3 ∧ (exErr3 0).used = true ∧ 0 ≤ (exErr3 0).stdout_fd ∧
    ((read_stdout exErr3 0 false 8 ReadOutcome.eof).2 0).stdout_fd < 0 ∧
    ((read_stdout exErr3 0 false 8 ReadOutcome.eof).2 0).stderr_fd < 0 ∧
    ((read_stdout exErr3 0 false 8 ReadOutcome.eof).2 0).exit_code = -1 ∧
    ((read_stdout exErr3 0 false 8 ReadOutcome.eof).2 0).exit_code ≠ -2 ∧
    ((read_stdout exErr3 0 false 8 ReadOutcome.eof).2 0).used = true := by
  refine ⟨reach_exErr3, ?_, ?_, ?_, ?_, ?_, ?_, ?_⟩ <;> decide

/-- Claim C3, counterexample: in the initial (reachable) state every slot
has `in_use = false`, but its pipe-endpoint fields hold the zero initial
value `0`, which the readers treat as an open descriptor (closed is
recorded as a negative value), so the endpoints are not recorded closed. -/
theorem C3_init_fd_not_closed :
    Reachable initReg ∧ (initReg 0).used = false ∧
    (initReg 0).stdout_fd = 0 ∧ ¬((initReg 0).stdout_fd < 0) ∧
    (initReg 0).stderr_fd = 0 ∧ ¬((initReg 0).stderr_fd < 0) := by
  refine ⟨Reachable.init, ?_, ?_, ?_, ?_, ?_⟩ <;> decide

/-- Claim C4, counterexample: slot 0 of the reachable state `exReg4` has
been reclaimed, yet `read_stdout` and `read_stderr` on handle 0 return `0`
(the stored endpoint is negative), not `-1`. -/
theorem C4_reclaimed_handle_reads_zero :
    Reachable exReg4 ∧ (exReg4 0).used = false ∧
    (read_stdout exReg4 0 false 8 ReadOutcome.eof).1 = 0 ∧
    (read_stdout exReg4 0 false 8 ReadOutcome.eof).1 ≠ -1 ∧
    (read_stderr exReg4 0 false 8 ReadOutcome.eof).1 = 0 ∧
    (read_stderr exReg4 0 false 8 ReadOutcome.eof).1 ≠ -1 := by
  refine ⟨reach_exReg4, ?_, ?_, ?_, ?_, ?_⟩ <;> decide

/-- Claim C5, counterexample: handle 0 is in range but was never allocated
in the initial (reachable) state; `get_exit_code` does not reject it with
`-1` — it reports the stored zero-initialised field, `0`. -/
theorem C5_unallocated_not_minus_one :
    Reachable initReg ∧ (initReg 0).used = false ∧
    (get_exit_code initReg 0 ChildState.alive).1 = 0 ∧
    (get_exit_code initReg 0 ChildState.alive).1 ≠ -1 := by
  refine ⟨Reachable.init, ?_, ?_, ?_⟩ <;> decide

/-- Claim C6, counterexample: `get_exit_code` on handle 0 reports `0` (a
value different from `-2`) in the initial state without mutating the
registry; a subsequent `start_process` reallocates slot 0 and resets the
exit state, after which `get_exit_code` reports `-2` — the forbidden
transition back to `-2`. -/
theorem C6_start_resets_to_running :
    (get_exit_code initReg 0 ChildState.alive).1 = 0 ∧
    (get_exit_code initReg 0 ChildState.alive).1 ≠ -2 ∧
    (get_exit_code initReg 0 ChildState.alive).2.1 = initReg ∧
    (start_process initReg false false (SpawnOutcome.ok 5 3 4)).2 = exReg1 ∧
    Reachable exReg1 ∧
    (get_exit_code exReg1 0 ChildState.alive).1 = -2 := by
  refine ⟨by decide, by decide, rfl, rfl, reach_exReg1, by decide⟩

/-- Claim C2, amended: when a reader observes EOF on the still-open stdout
endpoint of an in-use slot, the slot is freed if and only if both resulting
endpoints are closed and the exit state is `Exited` or `Signaled`
(`exit_code >= 0`); an `Error` exit state (`-1`), although terminal, does
not free the slot. -/
theorem C2_reclaim_requires_nonneg_code (reg : Registry) (h : Int) (len : Int)
    (h0 : 0 ≤ h) (h64 : h < 64) (hu : (reg h.toNat).used = true)
    (hfd : 0 ≤ (reg h.toNat).stdout_fd) (hlen : 0 < len) :
    ((((read_stdout reg h false len ReadOutcome.eof).2 h.toNat).used = false) ↔
      (((read_stdout reg h false len ReadOutcome.eof).2 h.toNat).stdout_fd < 0 ∧
       ((read_stdout reg h false len ReadOutcome.eof).2 h.toNat).stderr_fd < 0 ∧
       0 ≤ ((read_stdout reg h false len ReadOutcome.eof).2 h.toNat).exit_code)) := by
  rw [read_stdout_eof_eq reg h len h0 h64 hlen hfd]
  have hu1 : ((updateReg reg h.toNat { reg h.toNat with stdout_fd := -1 })
      h.toNat).used = true := by
    rw [updateReg_same]
    exact hu
  rw [maybe_clear_stdout_fd, maybe_clear_stderr_fd, maybe_clear_exit_code,
    maybe_clear_used_iff _ h h0 h64 hu1]

/-- Claim C2, witness: on slot 0 of `exReg3` (in use, stdout open, stderr
closed, exit code 0) the EOF-close frees the slot and the equivalence holds
with both sides true. -/
theorem C2_reclaim_requires_nonneg_code_witness :
    (exReg3 0).used = true ∧ 0 ≤ (exReg3 0).stdout_fd ∧
    ((((read_stdout exReg3 0 false 8 ReadOutcome.eof).2 0).used = false) ↔
      (((read_stdout exReg3 0 false 8 ReadOutcome.eof).2 0).stdout_fd < 0 ∧
       ((read_stdout exReg3 0 false 8 ReadOutcome.eof).2 0).stderr_fd < 0 ∧
       0 ≤ ((read_stdout exReg3 0 false 8 ReadOutcome.eof).2 0).exit_code)) :=
  ⟨by decide, by decide,
   C2_reclaim_requires_nonneg_code exReg3 0 8 (by decide) (by decide)
     (by decide) (by decide) (by decide)⟩

/-- Claim C3, amended: in every reachable registry state, every slot with
`in_use = false` has a non-Running exit state, and each of its endpoint
fields is at most 0: either recorded closed (negative) or, for a
never-allocated slot, still the zero initial value — which the readers do
not treat as closed. -/
theorem C3_free_slot_terminal (reg : Registry) (hr : Reachable reg) (i : Nat)
    (hi : i < 64) (hu : (reg i).used = false) :
    (reg i).exit_code ≠ -2 ∧ (reg i).stdout_fd ≤ 0 ∧ (reg i).stderr_fd ≤ 0 :=
  regInv_reachable hr i hu

/-- Claim C3, witness: the reclaimed slot 0 of the reachable state `exReg4`
satisfies the amended invariant. -/
theorem C3_free_slot_terminal_witness :
    (exReg4 0).used = false ∧
    ((exReg4 0).exit_code ≠ -2 ∧ (exReg4 0).stdout_fd ≤ 0 ∧
      (exReg4 0).stderr_fd ≤ 0) :=
  ⟨by decide, C3_free_slot_terminal exReg4 reach_exReg4 0 (by decide) (by decide)⟩

/-- Claim C4, amended: the readers return `-1` exactly for a null or empty
buffer or an out-of-range handle (allocation state is never checked); for
an in-range handle they return `0` when the stored endpoint is negative
(closed or reclaimed — a never-allocated slot instead stores `0`, on which
a real read is attempted), `0` on would-block, `-1` on any other read
error, `0` on EOF, and `n` when `n` bytes were read. -/
theorem C4_read_return_values (reg : Registry) (h : Int) (bn : Bool)
    (len : Int) (rr : ReadOutcome) :
    ((bn = true ∨ len ≤ 0 ∨ h < 0 ∨ 64 ≤ h) →
      (read_stdout reg h bn len rr).1 = -1 ∧
      (read_stderr reg h bn len rr).1 = -1) ∧
    (bn = false → 0 < len → 0 ≤ h → h < 64 →
      (((reg h.toNat).stdout_fd < 0 →
          read_stdout reg h bn len rr = (0, reg)) ∧
       (0 ≤ (reg h.toNat).stdout_fd →
         ((rr = ReadOutcome.wouldBlock → (read_stdout reg h bn len rr).1 = 0) ∧
          (rr = ReadOutcome.eof → (read_stdout reg h bn len rr).1 = 0) ∧
          (rr = ReadOutcome.readErr → (read_stdout reg h bn len rr).1 = -1) ∧
          (∀ n : Nat, rr = ReadOutcome.data n →
            (read_stdout reg h bn len rr).1 = (n : Int))))) ∧
      (((reg h.toNat).stderr_fd < 0 →
          read_stderr reg h bn len rr = (0, reg)) ∧
       (0 ≤ (reg h.toNat).stderr_fd →
         ((rr = ReadOutcome.wouldBlock → (read_stderr reg h bn len rr).1 = 0) ∧
          (rr = ReadOutcome.eof → (read_stderr reg h bn len rr).1 = 0) ∧
          (rr = ReadOutcome.readErr → (read_stderr reg h bn len rr).1 = -1) ∧
          (∀ n : Nat, rr = ReadOutcome.data n →
            (read_stderr reg h bn len rr).1 = (n : Int)))))) := by
  refine ⟨fun hinv => ⟨read_stdout_invalid _ _ _ _ _ hinv,
    read_stderr_invalid _ _ _ _ _ hinv⟩, ?_⟩
  intro hbn hlen h0 h64
  subst hbn
  refine ⟨⟨fun hfd => read_stdout_closed _ _ _ _ hlen h0 h64 hfd,
      fun hfd => ⟨?_, ?_, ?_, ?_⟩⟩,
    ⟨fun hfd => read_stderr_closed _ _ _ _ hlen h0 h64 hfd,
      fun hfd => ⟨?_, ?_, ?_, ?_⟩⟩⟩
  · intro hrr; subst hrr; rw [read_stdout_open_ret _ _ _ _ hlen h0 h64 hfd]
  · intro hrr; subst hrr; rw [read_stdout_open_ret _ _ _ _ hlen h0 h64 hfd]
  · intro hrr; subst hrr; rw [read_stdout_open_ret _ _ _ _ hlen h0 h64 hfd]
  · intro n hrr; subst hrr; rw [read_stdout_open_ret _ _ _ _ hlen h0 h64 hfd]
  · intro hrr; subst hrr; rw [read_stderr_open_ret _ _ _ _ hlen h0 h64 hfd]
  · intro hrr; subst hrr; rw [read_stderr_open_ret _ _ _ _ hlen h0 h64 hfd]
  · intro hrr; subst hrr; rw [read_stderr_open_ret _ _ _ _ hlen h0 h64 hfd]
  · intro n hrr; subst hrr; rw [read_stderr_open_ret _ _ _ _ hlen h0 h64 hfd]

/-- Claim C4, witness: an out-of-range handle yields `-1` on both streams;
a successful 3-byte read on slot 0 of `exReg1` returns 3; a read on the
reclaimed slot 0 of `exReg4` returns 0 without touching the registry. -/
theorem C4_read_return_values_witness :
    (read_stdout exReg1 99 false 8 ReadOutcome.eof).1 = -1 ∧
    (read_stderr exReg1 99 false 8 ReadOutcome.eof).1 = -1 ∧
    (read_stdout exReg1 0 false 8 (ReadOutcome.data 3)).1 = (3 : Int) ∧
    read_stdout exReg4 0 false 8 ReadOutcome.wouldBlock = (0, exReg4) := by
  have t1 := (C4_read_return_values exReg1 99 false 8 ReadOutcome.eof).1
    (by decide)
  have t2 := ((C4_read_return_values exReg1 0 false 8
    (ReadOutcome.data 3)).2 rfl (by decide) (by decide) (by decide)).1.2
    (by decide)
  have t3 := ((C4_read_return_values exReg4 0 false 8
    ReadOutcome.wouldBlock).2 rfl (by decide) (by decide) (by decide)).1.1
    (by decide)
  exact ⟨t1.1, t1.2, t2.2.2.2 3 rfl, t3⟩

/-- Claim C5, amended: `get_exit_code` returns `-1` for out-of-range
handles only; every in-range handle — allocated or not — is reaped and its
stored `exit_code` returned: when a reap commits, `Exited(c)` is recorded
as `c` in `0..=255`, `Signaled(s)` as `128 + s`, a failed wait as `-1`
(Error), and a still-running child leaves `-2` (Running); when the slot is
not in use or already terminal the stored value is returned unchanged, so
a never-allocated in-range handle reports its zero-initialised field `0`,
not `-1`. -/
theorem C5_exit_code_encoding (reg : Registry) (h : Int) (c : ChildState) :
    ((h < 0 ∨ 64 ≤ h) → (get_exit_code reg h c).1 = -1) ∧
    (0 ≤ h → h < 64 →
      (((reg h.toNat).used = false ∨ (reg h.toNat).exit_code ≠ -2) →
        (get_exit_code reg h c).1 = (reg h.toNat).exit_code) ∧
      ((reg h.toNat).used = true → (reg h.toNat).exit_code = -2 →
        ((c = ChildState.alive → (get_exit_code reg h c).1 = -2) ∧
         (∀ cd : Fin 256, c = ChildState.zombie (WaitStatus.exited cd) →
           (get_exit_code reg h c).1 = (cd : Int) ∧
             0 ≤ (get_exit_code reg h c).1 ∧ (get_exit_code reg h c).1 < 256) ∧
         (∀ s : Nat, c = ChildState.zombie (WaitStatus.signaled s) →
           (get_exit_code reg h c).1 = 128 + (s : Int)) ∧
         (c = ChildState.zombie WaitStatus.other →
           (get_exit_code reg h c).1 = -1) ∧
         (c = ChildState.reaped → (get_exit_code reg h c).1 = -1)))) := by
  refine ⟨fun hr => get_exit_code_invalid reg h c hr, ?_⟩
  intro h0 h64
  have hr : ¬(h < 0 ∨ 64 ≤ h) := by omega
  constructor
  · intro hg
    rw [get_exit_code_val _ _ _ hr, reap_guard_noop c hg]
  · intro hu he
    refine ⟨?_, ?_, ?_, ?_, ?_⟩
    · intro hc
      subst hc
      rw [get_exit_code_val _ _ _ hr, reap_commit _ _ _ hr hu he]
      simp only [waitpidNohang]
      exact he
    · intro cd hc
      subst hc
      have hlt : (cd : Nat) < 256 := cd.isLt
      rw [get_exit_code_val _ _ _ hr, reap_commit _ _ _ hr hu he]
      refine ⟨?_, ?_, ?_⟩ <;>
        simp only [waitpidNohang, updateReg_same, encodeWait] <;>
        omega
    · intro s hc
      subst hc
      rw [get_exit_code_val _ _ _ hr, reap_commit _ _ _ hr hu he]
      simp only [waitpidNohang, updateReg_same, encodeWait]
    · intro hc
      subst hc
      rw [get_exit_code_val _ _ _ hr, reap_commit _ _ _ hr hu he]
      simp only [waitpidNohang, updateReg_same, encodeWait]
    · intro hc
      subst hc
      rw [get_exit_code_val _ _ _ hr, reap_commit _ _ _ hr hu he]
      simp only [waitpidNohang, updateReg_same, encodeWait]

/-- Claim C5, witness: on the running slot 0 of `exReg1` a signal-9 death
reports 137, a normal exit 7 reports 7, a live child reports `-2`, a failed
wait reports `-1`; handle 77 is out of range and reports `-1`. -/
theorem C5_exit_code_encoding_witness :
    (get_exit_code exReg1 0 (ChildState.zombie (WaitStatus.signaled 9))).1
      = 128 + (9 : Int) ∧
    (get_exit_code exReg1 0 (ChildState.zombie (WaitStatus.exited 7))).1
      = ((7 : Fin 256) : Int) ∧
    (get_exit_code exReg1 0 ChildState.alive).1 = -2 ∧
    (get_exit_code exReg1 0 ChildState.reaped).1 = -1 ∧
    (get_exit_code exReg1 77 ChildState.alive).1 = -1 := by
  refine ⟨?_, ?_, ?_, ?_, ?_⟩
  · exact (((C5_exit_code_encoding exReg1 0 _).2 (by decide) (by decide)).2
      (by decide) (by decide)).2.2.1 9 rfl
  · exact ((((C5_exit_code_encoding exReg1 0 _).2 (by decide) (by decide)).2
      (by decide) (by decide)).2.1 7 rfl).1
  · exact (((C5_exit_code_encoding exReg1 0 _).2 (by decide) (by decide)).2
      (by decide) (by decide)).1 rfl
  · exact (((C5_exit_code_encoding exReg1 0 _).2 (by decide) (by decide)).2
      (by decide) (by decide)).2.2.2.2 rfl
  · exact (C5_exit_code_encoding exReg1 77 _).1 (by decide)

/-- Claim C6, amended: once a slot's exit state differs from `-2`, no
operation changes the value observed through `get_exit_code` — except a
`start_process` that reallocates that slot, which requires the slot to be
free and resets the state to `-2` (Running) for the new child (slot
reuse). -/
theorem C6_terminal_monotonic_except_start (reg reg' : Registry)
    (hs : Step reg reg') (i : Nat) (hi : i < 64)
    (hne : (reg i).exit_code ≠ -2) :
    (reg' i).exit_code = (reg i).exit_code ∨
      ((reg i).used = false ∧ (reg' i).used = true ∧
        (reg' i).exit_code = -2) :=
  step_exit_code hs i hne

/-- Claim C6, witness: the initial `start_process` step leaves the
untouched slot 1 with its exit state unchanged. -/
theorem C6_terminal_monotonic_except_start_witness :
    (initReg 1).exit_code ≠ -2 ∧
    ((exReg1 1).exit_code = (initReg 1).exit_code ∨
      ((initReg 1).used = false ∧ (exReg1 1).used = true ∧
        (exReg1 1).exit_code = -2)) :=
  ⟨by decide,
   C6_terminal_monotonic_except_start initReg exReg1
     (Step.start initReg false false (SpawnOutcome.ok 5 3 4)) 1
     (by decide) (by decide)⟩

end ProcWrapper
